import Mathlib

/-!
Shallow embedding of the MagLothes storefront state model (cart, checkout,
authentication, storage parsing) and proofs about the specified claims.

Conventions of the embedding:
* JS numbers that always hold finite numeric values are modelled as `ℚ`
  (prices) or `ℤ` (quantities); a JS numeric field that may be `undefined`
  (and hence produce `NaN` under arithmetic) is modelled as `Option ℚ`,
  with `none` propagating through `jsAdd` / `jsMul` the way `NaN` does.
* `localStorage` / `sessionStorage` values are modelled at the parsed level
  (an absent cart key reads as the empty list, an absent session as `none`);
  the raw string level, with a JSON parse step, is modelled separately for
  the storage-parsing claims.
* DOM access and rendering are side effects outside the state model; each
  handler is modelled as a function of its form inputs and the stored state,
  and timestamps and generated identifiers are explicit parameters.
-/

/-! ## Cart model (cart manager source: `getCart`, `addToCart`,
`removeFromCart`, `updateCartItemQuantity`, `getCartTotal`) -/

/-- A cart line item as stored under the cart storage key.  `size` and
`color` are `none` when the JS value is `null`. -/
structure CartItem where
  id : Int
  name : String
  price : ℚ
  image : String
  quantity : Int
  size : Option String
  color : Option String
  addedAt : String
deriving DecidableEq

/-- The fields of a product that `addToCart` snapshots into the cart line.
(The catalog carries further fields — description, category, sizes, … —
that the cart model never reads.) -/
structure Product where
  id : Int
  name : String
  price : ℚ
  image : String
deriving DecidableEq

/-- The `findIndex` callback of `addToCart`: a line matches when its
product id, size and color all equal the incoming ones (strict `===`). -/
def matchesKey (pid : Int) (size color : Option String) (item : CartItem) : Bool :=
  item.id == pid && item.size == size && item.color == color

/-- The fresh line `addToCart` pushes when no existing line matches;
`now` models `new Date().toISOString()`. -/
def newCartItem (p : Product) (quantity : Int) (size color : Option String)
    (now : String) : CartItem :=
  ⟨p.id, p.name, p.price, p.image, quantity, size, color, now⟩

/-- Models `cart.findIndex(...)` followed by the in-place
`cart[existingItemIndex].quantity += quantity`: the first line matching the
key gets its quantity incremented; `none` when no line matches. -/
def mergeFirst (pid : Int) (q : Int) (size color : Option String) :
    List CartItem → Option (List CartItem)
  | [] => none
  | item :: rest =>
    if matchesKey pid size color item then
      some ({ item with quantity := item.quantity + q } :: rest)
    else
      (mergeFirst pid q size color rest).map (item :: ·)

/-- `addToCart(product, quantity, size, color)` from the cart manager.
Returns the JS boolean result together with the cart that is persisted
(`saveCart`); a falsy product or product id returns `false` and leaves the
stored cart untouched.  A JS number id is falsy exactly when it is `0`
(or `NaN`, which an integer catalog id never is). -/
def addToCart (product : Option Product) (quantity : Int)
    (size color : Option String) (now : String) (cart : List CartItem) :
    Bool × List CartItem :=
  match product with
  | none => (false, cart)
  | some p =>
    if p.id = 0 then (false, cart)
    else
      match mergeFirst p.id quantity size color cart with
      | some merged => (true, merged)
      | none => (true, cart ++ [newCartItem p quantity size color now])

/-- `item.size || "default"`: a JS falsy string field (`null`, `undefined`,
`""`) falls back to `"default"`. -/
def orDefault : Option String → String
  | some s => if s = "" then "default" else s
  | none => "default"

/-- The string identity key used by `removeFromCart`, `updateCartItemQuantity`
and `renderCart`: `` `${item.id}-${item.size || "default"}-${item.color || "default"}` ``. -/
def cartItemId (item : CartItem) : String :=
  toString item.id ++ "-" ++ orDefault item.size ++ "-" ++ orDefault item.color

/-- `removeFromCart(itemId)`: keeps exactly the lines whose string key
differs from `itemId`, and persists the result. -/
def removeFromCart (itemId : String) (cart : List CartItem) : List CartItem :=
  cart.filter (fun item => !(cartItemId item == itemId))

/-- Models `cart.find(...)` followed by `item.quantity = newQuantity`:
sets the quantity of the first line whose string key is `itemId`;
`none` when no line matches. -/
def setQuantityFirst (itemId : String) (q : Int) :
    List CartItem → Option (List CartItem)
  | [] => none
  | item :: rest =>
    if cartItemId item == itemId then
      some ({ item with quantity := q } :: rest)
    else
      (setQuantityFirst itemId q rest).map (item :: ·)

/-- `updateCartItemQuantity(itemId, newQuantity)`: for `newQuantity < 1` it
delegates to `removeFromCart`; otherwise it mutates the first matching line
in place and persists (when no line matches, nothing is saved, so the
stored cart is unchanged). -/
def updateCartItemQuantity (itemId : String) (newQuantity : Int)
    (cart : List CartItem) : List CartItem :=
  if newQuantity < 1 then removeFromCart itemId cart
  else
    match setQuantityFirst itemId newQuantity cart with
    | some updated => updated
    | none => cart

/-- `getCartTotal()`: `cart.reduce((total, item) => total + item.price * item.quantity, 0)`. -/
def getCartTotal (cart : List CartItem) : ℚ :=
  cart.foldl (fun total item => total + item.price * (item.quantity : ℚ)) 0

/-! ## Checkout model (`checkout.js`: `processOrder`, `renderBuyNowCheckout`
and `renderCartCheckout` emptiness guards) -/

/-- JS `+` restricted to the numeric fields of order items: `none` models a
value whose arithmetic yields `NaN` (e.g. a field read off the empty object
that `JSON.parse("{}")` produces), and it propagates like `NaN` does. -/
def jsAdd : Option ℚ → Option ℚ → Option ℚ
  | some a, some b => some (a + b)
  | _, _ => none

/-- JS `*` on the same domain, with `NaN`/`undefined` propagation. -/
def jsMul : Option ℚ → Option ℚ → Option ℚ
  | some a, some b => some (a * b)
  | _, _ => none

/-- The literal `0.08` of `order.tax = subtotal * 0.08`. -/
def taxRate : ℚ := 8 / 100

/-- The literal `9.99` of `order.shipping = 9.99`. -/
def shippingFlat : ℚ := 999 / 100

/-- The numeric fields of an item inside an order (`price * quantity` is
all `processOrder` reads from its items). -/
structure OrderItem where
  price : Option ℚ
  quantity : Option ℚ
deriving DecidableEq

/-- Snapshot of a cart line into an order item (cart lines always carry
real numbers in both fields). -/
def toOrderItem (item : CartItem) : OrderItem :=
  ⟨some item.price, some (item.quantity : ℚ)⟩

/-- The single ad-hoc item of buy-now mode, stored under the session key
`buy-now-item` (only the numeric fields matter to the order totals). -/
structure BuyNowItem where
  price : ℚ
  quantity : ℚ
deriving DecidableEq

/-- `JSON.parse(sessionStorage.getItem("buy-now-item") || "{}")` as an order
item: an absent buy-now item parses to `{}`, whose `price` and `quantity`
reads are `undefined` (modelled `none`). -/
def buyNowOrderItem : Option BuyNowItem → OrderItem
  | some b => ⟨some b.price, some b.quantity⟩
  | none => ⟨none, none⟩

/-- The order record `processOrder` assembles and appends to the order log
(the customer form data is carried opaquely by the surrounding flow and
never read by the computations specified here, so it is omitted). -/
structure Order where
  id : String
  date : String
  items : List OrderItem
  mode : String
  status : String
  subtotal : Option ℚ
  shipping : Option ℚ
  tax : Option ℚ
  total : Option ℚ
deriving DecidableEq

/-- `order.items.reduce((sum, item) => sum + item.price * item.quantity, 0)`. -/
def orderSubtotal (items : List OrderItem) : Option ℚ :=
  items.foldl (fun sum item => jsAdd sum (jsMul item.price item.quantity)) (some 0)

/-- The storage state the checkout flow reads and writes: the cart (parsed;
the empty list doubles for an absent cart key, as `getCart` reads both as
`[]`), the pending buy-now item, and the order history log. -/
structure StoreState where
  cart : List CartItem
  buyNow : Option BuyNowItem
  orders : List Order
deriving DecidableEq

/-- `urlParams.get("mode")` is `null` when absent; `mode || "cart"` also
maps the falsy empty string to `"cart"`. -/
def modeStored : Option String → String
  | some s => if s = "" then "cart" else s
  | none => "cart"

/-- `processOrder(orderData)` from `checkout.js`: assembles the order
(items from the buy-now slot when `mode === "buy-now"`, else the cart),
computes `subtotal`, `shipping = 9.99`, `tax = subtotal * 0.08`,
`total = subtotal + order.shipping + order.tax`, appends the order to the
log (`saveOrder`), clears the cart unless in buy-now mode (`clearCart`),
and removes the buy-now item unconditionally. -/
def processOrder (mode : Option String) (now oid : String) (st : StoreState) :
    Order × StoreState :=
  let items :=
    if mode = some "buy-now" then [buyNowOrderItem st.buyNow]
    else st.cart.map toOrderItem
  let subtotal := orderSubtotal items
  let order : Order :=
    { id := oid
      date := now
      items := items
      mode := modeStored mode
      status := "confirmed"
      subtotal := subtotal
      shipping := some shippingFlat
      tax := jsMul subtotal (some taxRate)
      total := jsAdd (jsAdd subtotal (some shippingFlat)) (jsMul subtotal (some taxRate)) }
  (order,
    { cart := if mode = some "buy-now" then st.cart else []
      buyNow := none
      orders := st.orders ++ [order] })

/-- The emptiness guard at the top of `renderBuyNowCheckout`: with no
buy-now item present the page redirects to `shop.html` (and renders
nothing); otherwise it proceeds. -/
def renderBuyNowRedirect : Option BuyNowItem → Option String
  | none => some "shop.html"
  | some _ => none

/-- The emptiness guard at the top of `renderCartCheckout`: with an empty
cart the page redirects to `cart.html`; otherwise it proceeds. -/
def renderCartCheckoutRedirect (cart : List CartItem) : Option String :=
  if cart.length = 0 then some "cart.html" else none

/-! ## Authentication model (auth manager source: `handleRegister`,
`handleLogin`, password complexity regex) -/

/-- A registered user as stored under the users storage key. -/
structure User where
  id : String
  name : String
  email : String
  password : String
  createdAt : String
deriving DecidableEq

/-- The active session record stored in session-scoped storage. -/
structure Session where
  email : String
  name : String
  loginTime : String
deriving DecidableEq

/-- The authentication state the handlers read and write: the stored user
list and the active session slot. -/
structure AuthState where
  users : List User
  session : Option Session
deriving DecidableEq

/-- The outcome of a form handler: the error message it surfaces via
`showAuthError` (`none` on success) and the resulting stored state. -/
structure AuthResult where
  error : Option String
  st : AuthState
deriving DecidableEq

/-- A whitespace character for the purposes of JS `String.prototype.trim`
(the ASCII ones an email or name form field can carry). -/
def jsWhitespaceChar (c : Char) : Bool :=
  c = ' ' || c = '\t' || c = '\n' || c = '\r' || c = '\x0b' || c = '\x0c'

/-- JS `s.trim()`: strip leading and trailing whitespace. -/
def jsTrim (s : String) : String :=
  String.mk (((s.data.dropWhile jsWhitespaceChar).reverse.dropWhile
    jsWhitespaceChar).reverse)

/-- JS `String.prototype.toLowerCase` on one character (ASCII case fold;
the registration emails the claims concern are ASCII). -/
def lowerChar (c : Char) : Char :=
  if 'A' ≤ c ∧ c ≤ 'Z' then Char.ofNat (c.toNat + 32) else c

/-- JS `s.toLowerCase()`. -/
def jsToLower (s : String) : String :=
  String.mk (s.data.map lowerChar)

/-- ASCII `[a-z]` of the password regex. -/
def isAsciiLower (c : Char) : Bool := 'a' ≤ c && c ≤ 'z'

/-- ASCII `[A-Z]` of the password regex. -/
def isAsciiUpper (c : Char) : Bool := 'A' ≤ c && c ≤ 'Z'

/-- ASCII `\d` of the password regex. -/
def isAsciiDigit (c : Char) : Bool := '0' ≤ c && c ≤ '9'

/-- `[\W_]` of the password regex: `\W` is every character outside
`[A-Za-z0-9_]`, so together with `_` this is every character outside
`[A-Za-z0-9]`. -/
def isSpecial (c : Char) : Bool :=
  !(isAsciiLower c || isAsciiUpper c || isAsciiDigit c)

/-- A JS regex line terminator, which `.` does not match. -/
def isLineTerminator (c : Char) : Bool :=
  c = '\n' || c = '\r' || c = ' ' || c = ' '

/-- `/^(?=.*[a-z])(?=.*[A-Z])(?=.*\d)(?=.*[\W_]).{8,}$/.test(password)`:
the whole string is at least 8 characters, none of them line terminators
(`.` excludes those), and it contains a lowercase letter, an uppercase
letter, a digit and a character outside `[A-Za-z0-9]`. -/
def passwordComplexityTest (p : String) : Bool :=
  decide (8 ≤ p.length)
    && p.data.all (fun c => !(isLineTerminator c))
    && p.data.any isAsciiLower
    && p.data.any isAsciiUpper
    && p.data.any isAsciiDigit
    && p.data.any isSpecial

/-- `handleRegister` from the auth manager, as a function of the four raw
form field values and the state; `now` models the two timestamp reads and
`uid` models `Date.now().toString()`.  The name is trimmed, the email is
trimmed and case-folded, and the checks run in source order: blank fields,
password mismatch, complexity, duplicate email; on success the new user is
appended and a session for it is stored (auto-login). -/
def handleRegister (rawName rawEmail password confirmPassword now uid : String)
    (st : AuthState) : AuthResult :=
  let name := jsTrim rawName
  let email := jsToLower (jsTrim rawEmail)
  if name = "" ∨ email = "" ∨ password = "" ∨ confirmPassword = "" then
    ⟨some "Please fill in all fields", st⟩
  else if password ≠ confirmPassword then
    ⟨some "Passwords do not match", st⟩
  else if passwordComplexityTest password = false then
    ⟨some "Password must be at least 8 characters long and include an uppercase letter, a lowercase letter, a number, and a special character.", st⟩
  else if st.users.any (fun u => u.email == email) then
    ⟨some "Email already registered", st⟩
  else
    let newUser : User := ⟨uid, name, email, password, now⟩
    ⟨none, ⟨st.users ++ [newUser], some ⟨newUser.email, newUser.name, now⟩⟩⟩

/-- `handleLogin` from the auth manager: the email is trimmed and
case-folded, blank fields fail first with their own message, then
`users.find(u => u.email === email)` runs and a missing user or a password
mismatch both fail with the one generic message; on a match a session for
the found user is stored. -/
def handleLogin (rawEmail password now : String) (st : AuthState) : AuthResult :=
  let email := jsToLower (jsTrim rawEmail)
  if email = "" ∨ password = "" then
    ⟨some "Please enter email and password", st⟩
  else
    match st.users.find? (fun u => u.email == email) with
    | none => ⟨some "Invalid email or password", st⟩
    | some user =>
      if user.password ≠ password then ⟨some "Invalid email or password", st⟩
      else ⟨none, ⟨st.users, some ⟨user.email, user.name, now⟩⟩⟩

/-! ## Raw-storage readers and `JSON.parse` (for the storage-parsing
behavior of `getCart` / `getSession`).  The platform `JSON.parse` is
embedded as an executable parser of (strict) JSON texts; a parse failure
models the `SyntaxError` the platform throws. -/

/-- A parsed JSON value. -/
inductive Json where
  | null : Json
  | bool (b : Bool) : Json
  | num (q : ℚ) : Json
  | str (s : String) : Json
  | arr (elements : List Json) : Json
  | obj (members : List (String × Json)) : Json

/-- JSON insignificant whitespace. -/
def isJsonWs (c : Char) : Bool :=
  c = ' ' || c = '\t' || c = '\n' || c = '\r'

/-- Drop leading JSON whitespace. -/
def skipWs (input : List Char) : List Char :=
  match input with
  | [] => []
  | c :: cs => if isJsonWs c then skipWs cs else input

/-- Value of one hex digit (code points 48-57, 97-102, 65-70), for `\u`
escapes. -/
def hexVal (c : Char) : Option Nat :=
  let n := c.toNat
  if 48 ≤ n && n ≤ 57 then some (n - 48)
  else if 97 ≤ n && n ≤ 102 then some (n - 87)
  else if 65 ≤ n && n ≤ 70 then some (n - 55)
  else none

/-- Body of a JSON string after the opening quote: returns the decoded
characters and the input after the closing quote.  Escapes are decoded;
raw control characters are rejected. -/
def parseStringBody : Nat → List Char → Option (List Char × List Char)
  | 0, _ => none
  | _, [] => none
  | fuel + 1, c :: cs =>
    if c = '"' then some ([], cs)
    else if c = '\\' then
      match cs with
      | [] => none
      | e :: cs2 =>
        let cont := fun (decoded : Char) (rest : List Char) =>
          match parseStringBody fuel rest with
          | some (s, r) => some (decoded :: s, r)
          | none => none
        if e = '"' then cont '"' cs2
        else if e = '\\' then cont '\\' cs2
        else if e = '/' then cont '/' cs2
        else if e = 'b' then cont (Char.ofNat 8) cs2
        else if e = 'f' then cont (Char.ofNat 12) cs2
        else if e = 'n' then cont '\n' cs2
        else if e = 'r' then cont '\r' cs2
        else if e = 't' then cont '\t' cs2
        else if e = 'u' then
          match cs2 with
          | h1 :: h2 :: h3 :: h4 :: cs3 =>
            match hexVal h1, hexVal h2, hexVal h3, hexVal h4 with
            | some a, some b, some c2, some d =>
              cont (Char.ofNat (((a * 16 + b) * 16 + c2) * 16 + d)) cs3
            | _, _, _, _ => none
          | _ => none
        else none
    else if c.toNat < 32 then none
    else
      match parseStringBody fuel cs with
      | some (s, r) => some (c :: s, r)
      | none => none

/-- Longest prefix of ASCII digits. -/
def takeDigits (input : List Char) : List Char × List Char :=
  match input with
  | [] => ([], [])
  | c :: cs =>
    if isAsciiDigit c then
      let rest := takeDigits cs
      (c :: rest.1, rest.2)
    else
      ([], input)

/-- Numeric value of a digit sequence. -/
def digitsToNat (ds : List Char) : Nat :=
  ds.foldl (fun n c => n * 10 + (c.toNat - '0'.toNat)) 0

/-- A JSON number per the strict grammar: optional minus, an integer part
with no leading zeros, optional fraction, optional exponent. -/
def parseNumber (input : List Char) : Option (ℚ × List Char) :=
  let (neg, r1) :=
    match input with
    | '-' :: r => (true, r)
    | _ => (false, input)
  let (intDs, r2) := takeDigits r1
  if intDs = [] then none
  else if 1 < intDs.length ∧ intDs.head? = some '0' then none
  else
    let fracStep : Option (List Char × List Char) :=
      match r2 with
      | '.' :: r =>
        let (fd, r3) := takeDigits r
        if fd = [] then none else some (fd, r3)
      | _ => some ([], r2)
    match fracStep with
    | none => none
    | some (fracDs, r4) =>
      let expStep : Option (Bool × List Char × List Char) :=
        match r4 with
        | 'e' :: r | 'E' :: r =>
          let (sgn, r5) :=
            match r with
            | '+' :: r6 => (false, r6)
            | '-' :: r6 => (true, r6)
            | _ => (false, r)
          let (ed, r7) := takeDigits r5
          if ed = [] then none else some (sgn, ed, r7)
        | _ => some (false, [], r4)
      match expStep with
      | none => none
      | some (esgn, expDs, rest) =>
        let mantissa : ℚ :=
          (digitsToNat intDs : ℚ) + (digitsToNat fracDs : ℚ) / (10 : ℚ) ^ fracDs.length
        let e : ℤ :=
          if esgn then -(digitsToNat expDs : ℤ) else (digitsToNat expDs : ℤ)
        let value := mantissa * (10 : ℚ) ^ e
        some (if neg then -value else value, rest)

mutual

/-- One JSON value, fuel-bounded recursive descent. -/
def parseValue : Nat → List Char → Option (Json × List Char)
  | 0, _ => none
  | fuel + 1, input =>
    match skipWs input with
    | [] => none
    | 'n' :: 'u' :: 'l' :: 'l' :: rest => some (Json.null, rest)
    | 't' :: 'r' :: 'u' :: 'e' :: rest => some (Json.bool true, rest)
    | 'f' :: 'a' :: 'l' :: 's' :: 'e' :: rest => some (Json.bool false, rest)
    | '"' :: rest =>
      match parseStringBody (rest.length + 1) rest with
      | some (s, r) => some (Json.str (String.mk s), r)
      | none => none
    | '[' :: rest =>
      match skipWs rest with
      | ']' :: r => some (Json.arr [], r)
      | r1 =>
        match parseElements fuel r1 with
        | some (xs, r2) => some (Json.arr xs, r2)
        | none => none
    | '{' :: rest =>
      match skipWs rest with
      | '}' :: r => some (Json.obj [], r)
      | r1 =>
        match parseMembers fuel r1 with
        | some (ms, r2) => some (Json.obj ms, r2)
        | none => none
    | c :: rest =>
      if c = '-' || isAsciiDigit c then
        match parseNumber (c :: rest) with
        | some (q, r) => some (Json.num q, r)
        | none => none
      else none

/-- Comma-separated array elements up to the closing bracket. -/
def parseElements : Nat → List Char → Option (List Json × List Char)
  | 0, _ => none
  | fuel + 1, input =>
    match parseValue fuel input with
    | none => none
    | some (v, r) =>
      match skipWs r with
      | ',' :: r2 =>
        match parseElements fuel r2 with
        | some (vs, r3) => some (v :: vs, r3)
        | none => none
      | ']' :: r2 => some ([v], r2)
      | _ => none

/-- Comma-separated object members up to the closing brace. -/
def parseMembers : Nat → List Char → Option (List (String × Json) × List Char)
  | 0, _ => none
  | fuel + 1, input =>
    match skipWs input with
    | '"' :: r =>
      match parseStringBody (r.length + 1) r with
      | none => none
      | some (k, r2) =>
        match skipWs r2 with
        | ':' :: r3 =>
          match parseValue fuel r3 with
          | none => none
          | some (v, r4) =>
            match skipWs r4 with
            | ',' :: r5 =>
              match parseMembers fuel r5 with
              | some (ms, r6) => some ((String.mk k, v) :: ms, r6)
              | none => none
            | '}' :: r5 => some ([(String.mk k, v)], r5)
            | _ => none
        | _ => none
    | _ => none

end

/-- `JSON.parse(s)`: parse one value and require only whitespace after it;
`none` is the thrown `SyntaxError`.  The fuel exceeds the nesting depth a
text of this length can reach. -/
def jsonParse (s : String) : Option Json :=
  match parseValue (s.length + 1) s.data with
  | some (v, rest) => if skipWs rest = [] then some v else none
  | none => none

/-- `getCart()` at the raw-storage level, reading the string stored under
the cart key: `const cart = localStorage.getItem(CART_KEY); return cart ?
JSON.parse(cart) : [];`.  Only a falsy stored value (absent key or empty
string) yields the empty-cart fallback; a present string goes straight to
`JSON.parse` with no surrounding try/catch, so a parse failure escapes as
the thrown `SyntaxError` (`Except.error`). -/
def getCartStored (stored : Option String) : Except String Json :=
  match stored with
  | none => Except.ok (Json.arr [])
  | some s =>
    if s = "" then Except.ok (Json.arr [])
    else
      match jsonParse s with
      | some v => Except.ok v
      | none => Except.error "SyntaxError"

/-- `getSession()` at the raw-storage level: `const session =
sessionStorage.getItem(SESSION_KEY); return session ? JSON.parse(session) :
null;` — same shape as `getCartStored` with `null` as the fallback. -/
def getSessionStored (stored : Option String) : Except String Json :=
  match stored with
  | none => Except.ok Json.null
  | some s =>
    if s = "" then Except.ok Json.null
    else
      match jsonParse s with
      | some v => Except.ok v
      | none => Except.error "SyntaxError"

/-! ## Helper lemmas about the cart operations -/

/-- When no line matches the key, `findIndex` fails and `mergeFirst` is `none`. -/
theorem mergeFirst_of_no_match {pid q : Int} {size color : Option String} :
    ∀ {cart : List CartItem}, (∀ it ∈ cart, matchesKey pid size color it = false) →
      mergeFirst pid q size color cart = none
  | [], _ => rfl
  | a :: t, h => by
    have ha := h a (List.mem_cons_self a t)
    have ht := fun it hit => h it (List.mem_cons_of_mem a hit)
    simp [mergeFirst, ha, mergeFirst_of_no_match ht]

/-- When the only matching line is the last one, `mergeFirst` increments
exactly that line. -/
theorem mergeFirst_append_match {pid q : Int} {size color : Option String}
    {x : CartItem} (hx : matchesKey pid size color x = true) :
    ∀ {cart : List CartItem}, (∀ it ∈ cart, matchesKey pid size color it = false) →
      mergeFirst pid q size color (cart ++ [x])
        = some (cart ++ [{ x with quantity := x.quantity + q }])
  | [], _ => by simp [mergeFirst, hx]
  | a :: t, h => by
    have ha := h a (List.mem_cons_self a t)
    have ht := fun it hit => h it (List.mem_cons_of_mem a hit)
    simp [mergeFirst, ha, mergeFirst_append_match hx ht]

/-- A successful merge adds exactly the incoming quantity to the total
quantity held in the cart. -/
theorem mergeFirst_quantity_sum {pid q : Int} {size color : Option String} :
    ∀ {cart merged : List CartItem}, mergeFirst pid q size color cart = some merged →
      (merged.map CartItem.quantity).sum = (cart.map CartItem.quantity).sum + q
  | [], _, h => by simp [mergeFirst] at h
  | a :: t, merged, h => by
    by_cases ha : matchesKey pid size color a = true
    · simp only [mergeFirst, ha, if_true, Option.some.injEq] at h
      subst h
      simp [add_comm, add_assoc, add_left_comm]
    · rw [Bool.not_eq_true] at ha
      simp only [mergeFirst, ha, Bool.false_eq_true, if_false,
        Option.map_eq_some'] at h
      obtain ⟨t2, ht2, rfl⟩ := h
      have hs := mergeFirst_quantity_sum ht2
      simp [hs, add_assoc]

/-- C1: starting from a cart with no line for the identity key
`(product id, size, color)`, adding the product twice with quantities `q1`
then `q2` leaves the rest of the cart untouched and produces exactly one
line for that key, carrying quantity `q1 + q2` — never two lines. -/
theorem addToCart_merges_same_key
    (cart : List CartItem) (p : Product) (q1 q2 : Int) (size color : Option String)
    (t1 t2 : String) (hid : p.id ≠ 0)
    (hnone : ∀ it ∈ cart, matchesKey p.id size color it = false) :
    (addToCart (some p) q2 size color t2
        (addToCart (some p) q1 size color t1 cart).2).2
      = cart ++ [newCartItem p (q1 + q2) size color t1] ∧
    ((addToCart (some p) q2 size color t2
        (addToCart (some p) q1 size color t1 cart).2).2).countP
        (matchesKey p.id size color) = 1 := by
  have hxmatch : matchesKey p.id size color (newCartItem p q1 size color t1) = true := by
    simp [matchesKey, newCartItem]
  have h1 : (addToCart (some p) q1 size color t1 cart).2
      = cart ++ [newCartItem p q1 size color t1] := by
    simp [addToCart, hid, mergeFirst_of_no_match hnone]
  have h2 : (addToCart (some p) q2 size color t2
      (addToCart (some p) q1 size color t1 cart).2).2
      = cart ++ [newCartItem p (q1 + q2) size color t1] := by
    rw [h1]
    have hm := mergeFirst_append_match (q := q2) hxmatch hnone
    simp only [addToCart, hid, if_false, hm]
    simp [newCartItem]
  refine ⟨h2, ?_⟩
  rw [h2, List.countP_append]
  have hz : cart.countP (matchesKey p.id size color) = 0 :=
    List.countP_eq_zero.mpr (by intro a ha; simp [hnone a ha])
  have hone : (matchesKey p.id size color (newCartItem p (q1 + q2) size color t1)) = true := by
    simp [matchesKey, newCartItem]
  simp [hz, List.countP_cons, hone]

/-- Witness for C1 at a concrete product, quantities 2 and 3, and the
empty cart. -/
theorem addToCart_merges_same_key_witness :
    ((⟨1, "Tee", 10, "img"⟩ : Product).id ≠ 0) ∧
    (∀ it ∈ ([] : List CartItem), matchesKey 1 none none it = false) ∧
    (addToCart (some ⟨1, "Tee", 10, "img"⟩) 3 none none "t2"
        (addToCart (some ⟨1, "Tee", 10, "img"⟩) 2 none none "t1" []).2).2
      = [newCartItem ⟨1, "Tee", 10, "img"⟩ 5 none none "t1"] := by
  refine ⟨by decide, by intro it hit; exact absurd hit (List.not_mem_nil it), ?_⟩
  have h := (addToCart_merges_same_key [] ⟨1, "Tee", 10, "img"⟩ 2 3 none none "t1" "t2"
    (by decide) (by intro it hit; exact absurd hit (List.not_mem_nil it))).1
  simpa using h

/-- C9: for a new quantity below 1 (zero or negative),
`updateCartItemQuantity` leaves the stored cart exactly as
`removeFromCart` does: every line with the given string key is removed and
all other lines are kept unchanged, in order. -/
theorem updateQuantity_below_one_removes (itemId : String) (q : Int)
    (cart : List CartItem) (h : q < 1) :
    updateCartItemQuantity itemId q cart = removeFromCart itemId cart ∧
    updateCartItemQuantity itemId q cart
      = cart.filter (fun it => !(cartItemId it == itemId)) := by
  constructor
  · simp [updateCartItemQuantity, if_pos h]
  · simp [updateCartItemQuantity, removeFromCart, if_pos h]

/-- Witness for C9 at quantity 0 on a two-line cart whose first line
matches the key. -/
theorem updateQuantity_below_one_removes_witness :
    ((0 : Int) < 1) ∧
    updateCartItemQuantity "1-default-default" 0
        [⟨1, "Tee", 10, "img", 2, none, none, "t"⟩,
         ⟨2, "Hat", 5, "img", 1, none, none, "t"⟩]
      = removeFromCart "1-default-default"
        [⟨1, "Tee", 10, "img", 2, none, none, "t"⟩,
         ⟨2, "Hat", 5, "img", 1, none, none, "t"⟩] ∧
    removeFromCart "1-default-default"
        [⟨1, "Tee", 10, "img", 2, none, none, "t"⟩,
         ⟨2, "Hat", 5, "img", 1, none, none, "t"⟩]
      = [⟨2, "Hat", 5, "img", 1, none, none, "t"⟩] := by
  refine ⟨by decide, (updateQuantity_below_one_removes _ _ _ (by decide)).1, by decide⟩

/-- C10: for a product with a truthy id, `addToCart` performs no
minimum-quantity check: it returns `true` for every integer quantity,
the total quantity stored grows by exactly that quantity (so zero and
negative line quantities are storable), and with no matching line the
persisted cart gains a new line holding exactly that quantity. -/
theorem addToCart_no_minimum_quantity (p : Product) (q : Int)
    (size color : Option String) (now : String) (cart : List CartItem)
    (hid : p.id ≠ 0) :
    (addToCart (some p) q size color now cart).1 = true ∧
    (((addToCart (some p) q size color now cart).2.map CartItem.quantity).sum
        = (cart.map CartItem.quantity).sum + q) ∧
    ((∀ it ∈ cart, matchesKey p.id size color it = false) →
      (addToCart (some p) q size color now cart).2
        = cart ++ [newCartItem p q size color now]) := by
  refine ⟨?_, ?_, ?_⟩
  · cases hm : mergeFirst p.id q size color cart <;> simp [addToCart, hid, hm]
  · cases hm : mergeFirst p.id q size color cart with
    | none => simp [addToCart, hid, hm, newCartItem]
    | some merged => simp [addToCart, hid, hm, mergeFirst_quantity_sum hm]
  · intro hnone
    simp [addToCart, hid, mergeFirst_of_no_match hnone]

/-- Witness for C10 at quantity `-3` on the empty cart. -/
theorem addToCart_no_minimum_quantity_witness :
    ((⟨1, "Tee", 10, "img"⟩ : Product).id ≠ 0) ∧
    (addToCart (some ⟨1, "Tee", 10, "img"⟩) (-3) none none "t" []).1 = true ∧
    (addToCart (some ⟨1, "Tee", 10, "img"⟩) (-3) none none "t" []).2
      = [⟨1, "Tee", 10, "img", -3, none, none, "t"⟩] := by
  refine ⟨by decide,
    (addToCart_no_minimum_quantity ⟨1, "Tee", 10, "img"⟩ (-3) none none "t" [] (by decide)).1,
    ?_⟩
  have h := (addToCart_no_minimum_quantity ⟨1, "Tee", 10, "img"⟩ (-3) none none "t" []
    (by decide)).2.2 (by intro it hit; exact absurd hit (List.not_mem_nil it))
  simpa [newCartItem] using h

/-! ## Theorems about the checkout computations -/

/-- The order-item fold over a cart snapshot never meets a missing field,
so it computes the plain rational sum of `price * quantity`. -/
theorem orderSubtotal_of_cart (cart : List CartItem) :
    orderSubtotal (cart.map toOrderItem)
      = some ((cart.map (fun it => it.price * (it.quantity : ℚ))).sum) := by
  suffices h : ∀ a : ℚ,
      (cart.map toOrderItem).foldl
          (fun sum item => jsAdd sum (jsMul item.price item.quantity)) (some a)
        = some (a + (cart.map (fun it => it.price * (it.quantity : ℚ))).sum) by
    simpa [orderSubtotal] using h 0
  induction cart with
  | nil => intro a; simp
  | cons x t ih =>
    intro a
    have hhead : jsAdd (some a) (jsMul (toOrderItem x).price (toOrderItem x).quantity)
        = some (a + x.price * (x.quantity : ℚ)) := by
      simp [jsAdd, jsMul, toOrderItem]
    rw [List.map_cons, List.foldl_cons, hhead, ih, List.map_cons, List.sum_cons,
      add_assoc]

/-- C2: every order `processOrder` builds stores
`subtotal = Σ price * quantity` over its items, `tax = subtotal * 0.08`
with no rounding applied to the stored value, and
`total = subtotal + shipping + tax`; in cart mode the stored subtotal is
exactly the rational sum of `price * quantity` over the cart lines.
These fields are assigned once, when the order record is assembled. -/
theorem order_totals_formula (mode : Option String) (now oid : String)
    (st : StoreState) :
    ((processOrder mode now oid st).1.subtotal
        = orderSubtotal (processOrder mode now oid st).1.items) ∧
    ((processOrder mode now oid st).1.tax
        = jsMul (processOrder mode now oid st).1.subtotal (some taxRate)) ∧
    ((processOrder mode now oid st).1.total
        = jsAdd (jsAdd (processOrder mode now oid st).1.subtotal
              (processOrder mode now oid st).1.shipping)
            (processOrder mode now oid st).1.tax) ∧
    ((processOrder none now oid st).1.subtotal
        = some ((st.cart.map (fun it => it.price * (it.quantity : ℚ))).sum)) := by
  refine ⟨rfl, rfl, rfl, ?_⟩
  simp [processOrder, orderSubtotal_of_cart]

/-- Counterexample to C3: a cart-mode order over a cart whose one line has
quantity 0 (storable, since `addToCart` accepts any quantity) is created
with subtotal 0 yet stored shipping 9.99, not the 0 the claim requires for
zero-subtotal cart-mode orders. -/
theorem cart_mode_shipping_counterexample :
    ((processOrder none "2024-01-01" "ORD-1"
        ⟨[⟨1, "Tee", 10, "img", 0, none, none, "t0"⟩], none, []⟩).1.mode = "cart") ∧
    ((processOrder none "2024-01-01" "ORD-1"
        ⟨[⟨1, "Tee", 10, "img", 0, none, none, "t0"⟩], none, []⟩).1.subtotal = some 0) ∧
    ((processOrder none "2024-01-01" "ORD-1"
        ⟨[⟨1, "Tee", 10, "img", 0, none, none, "t0"⟩], none, []⟩).1.shipping
      = some shippingFlat) ∧
    shippingFlat ≠ (0 : ℚ) := by
  refine ⟨rfl, ?_, rfl, by norm_num [shippingFlat]⟩
  simp [processOrder, orderSubtotal, toOrderItem, jsAdd, jsMul]

/-- C3 as amended: the stored shipping field of every order `processOrder`
creates is the flat 9.99, unconditionally, in cart mode and buy-now mode
alike; the subtotal-conditional 9.99-or-0 shipping of the specification
appears only in the cart-page display logic, never in a stored order. -/
theorem order_shipping_always_flat (mode : Option String) (now oid : String)
    (st : StoreState) :
    (processOrder mode now oid st).1.shipping = some shippingFlat := rfl

/-- Counterexample to C4: invoked with an empty source, `processOrder`
still creates an order and appends it to the previously empty order log —
in cart mode with an empty cart the order simply has no items, and in
buy-now mode with no buy-now item it has the single empty item. -/
theorem processOrder_empty_source_still_logs :
    ((processOrder none "d" "ORD-1" ⟨[], none, []⟩).2.orders.length = 1) ∧
    ((processOrder none "d" "ORD-1" ⟨[], none, []⟩).1.items = []) ∧
    ((processOrder (some "buy-now") "d" "ORD-2" ⟨[], none, []⟩).2.orders.length = 1) ∧
    ((processOrder (some "buy-now") "d" "ORD-2" ⟨[], none, []⟩).1.items
      = [⟨none, none⟩]) :=
  ⟨rfl, rfl, rfl, rfl⟩

/-- C4 as amended: `processOrder` itself performs no emptiness check — for
every state and mode it creates an order and appends it to the order log —
while emptiness is handled earlier, at page initialization: with an empty
cart the cart-checkout renderer redirects to `cart.html`, and with no
buy-now item the buy-now renderer redirects to `shop.html`, so the
checkout form is never set up in the normal flow. -/
theorem processOrder_appends_and_guards_redirect (mode : Option String)
    (now oid : String) (st : StoreState) :
    ((processOrder mode now oid st).2.orders
        = st.orders ++ [(processOrder mode now oid st).1]) ∧
    renderCartCheckoutRedirect [] = some "cart.html" ∧
    renderBuyNowRedirect none = some "shop.html" :=
  ⟨rfl, rfl, rfl⟩

/-- C5: after `processOrder`, the pending buy-now item is cleared
unconditionally, and the stored cart is cleared exactly when the mode is
not `"buy-now"` — in buy-now mode the cart is left untouched. -/
theorem processOrder_frame (mode : Option String) (now oid : String)
    (st : StoreState) :
    (processOrder mode now oid st).2.buyNow = none ∧
    (processOrder mode now oid st).2.cart
      = (if mode = some "buy-now" then st.cart else []) :=
  ⟨rfl, rfl⟩

/-! ## Theorems about registration, login and storage parsing -/

/-- C7: a registration attempt whose case-folded email is already the
email of a stored user never mutates the state — no second user record is
appended and no session is created — and, whenever the attempt passes the
earlier checks (no blank field, matching passwords, complexity satisfied),
the surfaced error is precisely the duplicate-email message. -/
theorem register_duplicate_email_rejected
    (rawName rawEmail password confirmPassword now uid : String) (st : AuthState)
    (hdup : ∃ u ∈ st.users, u.email = jsToLower (jsTrim rawEmail)) :
    ((handleRegister rawName rawEmail password confirmPassword now uid st).st = st) ∧
    ((handleRegister rawName rawEmail password confirmPassword now uid st).error.isSome
        = true) ∧
    (jsTrim rawName ≠ "" → jsToLower (jsTrim rawEmail) ≠ "" → password ≠ "" →
      confirmPassword ≠ "" → password = confirmPassword →
      passwordComplexityTest password = true →
      (handleRegister rawName rawEmail password confirmPassword now uid st).error
        = some "Email already registered") := by
  have hany : st.users.any (fun u => u.email == jsToLower (jsTrim rawEmail)) = true := by
    obtain ⟨u, hu, he⟩ := hdup
    exact List.any_eq_true.mpr ⟨u, hu, by simp [he]⟩
  have hstep : ∃ msg, handleRegister rawName rawEmail password confirmPassword now uid st
      = ⟨some msg, st⟩ := by
    simp only [handleRegister]
    by_cases h1 : jsTrim rawName = "" ∨ jsToLower (jsTrim rawEmail) = ""
        ∨ password = "" ∨ confirmPassword = ""
    · rw [if_pos h1]; exact ⟨_, rfl⟩
    rw [if_neg h1]
    by_cases h2 : password ≠ confirmPassword
    · rw [if_pos h2]; exact ⟨_, rfl⟩
    rw [if_neg h2]
    by_cases h3 : passwordComplexityTest password = false
    · rw [if_pos h3]; exact ⟨_, rfl⟩
    rw [if_neg h3, if_pos hany]
    exact ⟨_, rfl⟩
  obtain ⟨msg, hmsg⟩ := hstep
  refine ⟨by rw [hmsg], by rw [hmsg]; rfl, ?_⟩
  intro hn he hp hc hpc ht
  simp only [handleRegister]
  rw [if_neg (by push_neg; exact ⟨hn, he, hp, hc⟩),
    if_neg (fun hcontra => hcontra hpc),
    if_neg (by rw [ht]; simp), if_pos hany]

/-- Witness for C7: with `a@b.com` already registered, a second
registration under the same email with a distinct valid password is
rejected with the duplicate-email message and the state is unchanged. -/
theorem register_duplicate_email_rejected_witness :
    (∃ u ∈ [(⟨"1", "Alice", "a@b.com", "Aa1!aaaa", "t0"⟩ : User)],
        u.email = jsToLower (jsTrim "a@b.com")) ∧
    ((handleRegister "Bob" "a@b.com" "Bb2@bbbb" "Bb2@bbbb" "t1" "2"
        ⟨[⟨"1", "Alice", "a@b.com", "Aa1!aaaa", "t0"⟩], none⟩).st
      = ⟨[⟨"1", "Alice", "a@b.com", "Aa1!aaaa", "t0"⟩], none⟩) ∧
    ((handleRegister "Bob" "a@b.com" "Bb2@bbbb" "Bb2@bbbb" "t1" "2"
        ⟨[⟨"1", "Alice", "a@b.com", "Aa1!aaaa", "t0"⟩], none⟩).error
      = some "Email already registered") := by
  have hdup : ∃ u ∈ [(⟨"1", "Alice", "a@b.com", "Aa1!aaaa", "t0"⟩ : User)],
      u.email = jsToLower (jsTrim "a@b.com") :=
    ⟨⟨"1", "Alice", "a@b.com", "Aa1!aaaa", "t0"⟩, List.mem_singleton.mpr rfl, by decide⟩
  refine ⟨hdup, ?_, ?_⟩
  · exact (register_duplicate_email_rejected "Bob" "a@b.com" "Bb2@bbbb" "Bb2@bbbb"
      "t1" "2" _ hdup).1
  · exact (register_duplicate_email_rejected "Bob" "a@b.com" "Bb2@bbbb" "Bb2@bbbb"
      "t1" "2" _ hdup).2.2 (by decide) (by decide) (by decide) (by decide) rfl (by decide)

/-- With pairwise-distinct stored emails (the invariant registration
enforces), `users.find` locates exactly the stored user carrying the
sought email. -/
theorem find_first_with_email {em : String} :
    ∀ {l : List User}, l.Pairwise (fun a b => a.email ≠ b.email) →
      ∀ u ∈ l, u.email = em → l.find? (fun x => x.email == em) = some u
  | [], _, u, hu, _ => absurd hu (List.not_mem_nil u)
  | a :: t, hp, u, hu, he => by
    obtain ⟨ha, hp2⟩ := List.pairwise_cons.mp hp
    rcases List.mem_cons.mp hu with rfl | hut
    · exact List.find?_cons_of_pos t (by simp [he])
    · have hne : (a.email == em) = false := by
        simp only [beq_eq_false_iff_ne, ne_eq]
        rw [← he]
        exact ha u hut
      rw [List.find?_cons_of_neg t (by simp [hne]), find_first_with_email hp2 u hut he]

/-- C8: when neither field is blank, a login attempt matching no stored
user on (case-folded email, exact password) fails with the one generic
message — the same whether the email is unknown or only the password is
wrong — leaving the state unchanged and creating no session; and when a
stored user does match (under the email-uniqueness invariant), a session
for that user is established. -/
theorem login_generic_failure_and_success (rawEmail password now : String)
    (st : AuthState)
    (hne : jsToLower (jsTrim rawEmail) ≠ "") (hnp : password ≠ "") :
    ((∀ u ∈ st.users, ¬(u.email = jsToLower (jsTrim rawEmail) ∧ u.password = password)) →
      handleLogin rawEmail password now st = ⟨some "Invalid email or password", st⟩) ∧
    (st.users.Pairwise (fun a b => a.email ≠ b.email) →
      ∀ u ∈ st.users, u.email = jsToLower (jsTrim rawEmail) → u.password = password →
        handleLogin rawEmail password now st
          = ⟨none, ⟨st.users, some ⟨u.email, u.name, now⟩⟩⟩) := by
  constructor
  · intro hnomatch
    simp only [handleLogin]
    rw [if_neg (by push_neg; exact ⟨hne, hnp⟩)]
    cases hf : st.users.find? (fun u => u.email == jsToLower (jsTrim rawEmail)) with
    | none => rfl
    | some u =>
      have hu : u ∈ st.users := List.mem_of_find?_eq_some hf
      have hue : u.email = jsToLower (jsTrim rawEmail) := by
        have := List.find?_some hf
        simpa using this
      have hup : u.password ≠ password := fun hpw => hnomatch u hu ⟨hue, hpw⟩
      simp [hup]
  · intro hp u hu he hpw
    simp only [handleLogin]
    rw [if_neg (by push_neg; exact ⟨hne, hnp⟩)]
    rw [find_first_with_email hp u hu he]
    simp [hpw]

/-- Witness for C8: against a store holding exactly Alice with password
`Aa1!aaaa`, a wrong-password attempt fails with the generic message and
leaves the state unchanged, and the correct credentials establish the
session for Alice. -/
theorem login_generic_failure_and_success_witness :
    (jsToLower (jsTrim "a@b.com") ≠ "" ∧ ("wrong" : String) ≠ "") ∧
    (handleLogin "a@b.com" "wrong" "t1"
        ⟨[⟨"1", "Alice", "a@b.com", "Aa1!aaaa", "t0"⟩], none⟩
      = ⟨some "Invalid email or password",
          ⟨[⟨"1", "Alice", "a@b.com", "Aa1!aaaa", "t0"⟩], none⟩⟩) ∧
    (handleLogin "a@b.com" "Aa1!aaaa" "t1"
        ⟨[⟨"1", "Alice", "a@b.com", "Aa1!aaaa", "t0"⟩], none⟩
      = ⟨none, ⟨[⟨"1", "Alice", "a@b.com", "Aa1!aaaa", "t0"⟩],
          some ⟨"a@b.com", "Alice", "t1"⟩⟩⟩) := by
  refine ⟨⟨by decide, by decide⟩, ?_, ?_⟩
  · exact (login_generic_failure_and_success "a@b.com" "wrong" "t1" _
      (by decide) (by decide)).1 (by decide)
  · exact (login_generic_failure_and_success "a@b.com" "Aa1!aaaa" "t1" _
      (by decide) (by decide)).2 (by simp)
      ⟨"1", "Alice", "a@b.com", "Aa1!aaaa", "t0"⟩ (List.mem_singleton.mpr rfl)
      (by decide) rfl

/-- Counterexample to C6: a stored string that is not valid JSON does not
read back as the empty/absent fallback — `getCart` and `getSession` pass
it straight to `JSON.parse`, whose failure escapes to the caller. -/
theorem storage_parse_failure_counterexample :
    jsonParse "x" = none ∧
    getCartStored (some "x") = Except.error "SyntaxError" ∧
    getSessionStored (some "x") = Except.error "SyntaxError" :=
  ⟨rfl, rfl, rfl⟩

/-- C6 as amended: only a falsy stored value — an absent key (or the empty
string) — reads back as the empty cart or absent session; a present stored
string that fails to parse as JSON makes the read raise, with no handler
in `getCart` or `getSession`, so the parse failure propagates to the
caller. -/
theorem storage_parse_failure_propagates (s : String)
    (hbad : jsonParse s = none) (hne : s ≠ "") :
    getCartStored (some s) = Except.error "SyntaxError" ∧
    getSessionStored (some s) = Except.error "SyntaxError" ∧
    getCartStored none = Except.ok (Json.arr []) ∧
    getSessionStored none = Except.ok Json.null := by
  refine ⟨?_, ?_, rfl, rfl⟩
  · simp [getCartStored, hne, hbad]
  · simp [getSessionStored, hne, hbad]

/-- Witness for the amended C6 at the lone-brace string, which is not
valid JSON. -/
theorem storage_parse_failure_propagates_witness :
    (jsonParse "\x7b" = none ∧ ("\x7b" : String) ≠ "") ∧
    getCartStored (some "\x7b") = Except.error "SyntaxError" ∧
    getSessionStored (some "\x7b") = Except.error "SyntaxError" := by
  refine ⟨⟨rfl, by decide⟩, ?_, ?_⟩
  · exact (storage_parse_failure_propagates "\x7b" rfl (by decide)).1
  · exact (storage_parse_failure_propagates "\x7b" rfl (by decide)).2.1
